import Mathlib

/-!
Shallow embedding of the SwasthyaSense analysis pipeline, local store and
dashboard aggregator.

Sources embedded:
- src/types.ts                (data model: AnalysisType, RiskLevel, Medication,
                               ScanFinding, PatientInfo, AnalysisResult)
- src/services/apiClient.ts   (analyzeDocument and the simulated backend:
                               performAnalysisOnBackend, generateHeatmapUrl,
                               prompt selection, fallback records)
- src/services/dbService.ts   (initDB, addReport, getAllReports)
- src/components/Dashboard.tsx (healthTrend derivation)

Conventions: the browser / external-service environment of one analysis run
(the two FileReader encodings, Math.random ids, Date.now, and the outcome of
the Gemini generateContent call followed by JSON.parse) is captured in an
explicit AnalysisEnv record; a rejected promise is an Except.error, a resolved
one an Except.ok. The Gemini responseSchema constrains riskLevel to the four
enum strings, medication status and finding severity to their enum strings,
and safetyScore to an integer (the 0..100 range appears only in the schema
description text, which is not enforced), so a successful model outcome is
modelled as a typed record with safetyScore an unconstrained Int.
-/

/-- AnalysisType from src/types.ts. -/
inductive AnalysisType where
  | prescription
  | scan
deriving DecidableEq, BEq

/-- RiskLevel from src/types.ts. -/
inductive RiskLevel where
  | low
  | medium
  | high
  | critical
deriving DecidableEq, BEq

/-- Medication status union type from src/types.ts:
'Verified' | 'Interaction Warning' | 'Incorrect Dosage'. -/
inductive MedStatus where
  | verified
  | interactionWarning
  | incorrectDosage
deriving DecidableEq, BEq

/-- Scan finding severity union type from src/types.ts:
'Mild' | 'Moderate' | 'Severe'. -/
inductive Severity where
  | mild
  | moderate
  | severe
deriving DecidableEq, BEq

/-- Medication from src/types.ts (technicalNotes is optional there). -/
structure Medication where
  name : String
  dosage : String
  status : MedStatus
  notes : String
  technicalNotes : Option String
deriving DecidableEq, BEq

/-- ScanFinding from src/types.ts. -/
structure ScanFinding where
  finding : String
  location : String
  severity : Severity
deriving DecidableEq, BEq

/-- PatientInfo from src/types.ts. -/
structure PatientInfo where
  name : String
  id : String
  dob : String
deriving DecidableEq, BEq

/-- The uploadedFile sub-object of AnalysisResult in src/types.ts. -/
structure UploadedFile where
  name : String
  url : String
  type : String
deriving DecidableEq, BEq

/-- AnalysisResult from src/types.ts.  An absent optional field of the
TypeScript object is `none`. -/
structure AnalysisResult where
  id : String
  date : Nat
  type : AnalysisType
  uploadedFile : UploadedFile
  patientInfo : PatientInfo
  riskLevel : RiskLevel
  safetyScore : Int
  medications : Option (List Medication)
  scanFindings : Option (List ScanFinding)
  summary : String
  patientFriendlySummary : String
  heatmapUrl : Option String
deriving DecidableEq, BEq

/-- The (name, MIME type) view of the uploaded File object that the backend
service reads (file.name and file.type). -/
structure FileInput where
  name : String
  mime : String
deriving DecidableEq, BEq

/-- Leading-match helper: does the second list occur at the head of the
first?  Used to embed JavaScript String.prototype.includes. -/
def matchesAt : List Char → List Char → Bool
  | _, [] => true
  | [], _ :: _ => false
  | h :: hs, n :: ns => h == n && matchesAt hs ns

/-- Substring occurrence over character lists. -/
def containsSub : List Char → List Char → Bool
  | [], needle => matchesAt [] needle
  | h :: t, needle => matchesAt (h :: t) needle || containsSub t needle

/-- JavaScript String.prototype.includes. -/
def stringIncludes (s sub : String) : Bool :=
  containsSub s.toList sub.toList

/-- JavaScript String.prototype.toLowerCase (ASCII-faithful). -/
def toLowerCaseStr (s : String) : String :=
  String.mk (s.toList.map Char.toLower)

/-- The base64 alphabet used by btoa. -/
def base64Alphabet : List Char :=
  "ABCDEFGHIJKLMNOPQRSTUVWXYZabcdefghijklmnopqrstuvwxyz0123456789+/".toList

/-- The nth base64 digit. -/
def base64Digit (n : Nat) : Char := base64Alphabet.getD n '='

/-- Encode a byte list (3 bytes to 4 digits, '=' padding) as in btoa. -/
def btoaChunks : List Nat → List Char
  | [] => []
  | [a] => [base64Digit (a / 4), base64Digit (a % 4 * 16), '=', '=']
  | [a, b] => [base64Digit (a / 4), base64Digit (a % 4 * 16 + b / 16), base64Digit (b % 16 * 4), '=']
  | a :: b :: c :: rest =>
      base64Digit (a / 4) :: base64Digit (a % 4 * 16 + b / 16) ::
      base64Digit (b % 16 * 4 + c / 64) :: base64Digit (c % 64) :: btoaChunks rest

/-- The browser btoa function on a Latin-1 string. -/
def btoa (s : String) : String :=
  String.mk (btoaChunks (s.toList.map Char.toNat))

/-- The SVG text built inside generateHeatmapUrl
(src/services/apiClient.ts, backend part, lines 51-60). -/
def heatmapSvg : String := "<svg width=\"512\" height=\"512\" xmlns=\"http://www.w3.org/2000/svg\">
      <defs>
        <radialGradient id=\"grad1\" cx=\"50%\" cy=\"50%\" r=\"50%\" fx=\"50%\" fy=\"50%\">
          <stop offset=\"0%\" style=\"stop-color:rgba(255,0,0,0.8);stop-opacity:1\" />
          <stop offset=\"100%\" style=\"stop-color:rgba(255,255,0,0);stop-opacity:0\" />
        </radialGradient>
      </defs>
      <rect width=\"512\" height=\"512\" fill=\"none\" />
      <circle cx=\"256\" cy=\"200\" r=\"100\" fill=\"url(#grad1)\" />
    </svg>"

/-- generateHeatmapUrl from the backend part of src/services/apiClient.ts.
The source function takes no parameters, so its value is one fixed string. -/
def generateHeatmapUrl : String :=
  "data:image/svg+xml;base64," ++ btoa heatmapSvg

/-- generatePatientInfo from the backend part of src/services/apiClient.ts;
the random six-digit part of the id is supplied by the environment. -/
def generatePatientInfo (userName : String) (randomDigits : String) : PatientInfo :=
  { name := userName, id := "P" ++ randomDigits, dob := "1985-05-22" }

/-- The prescription-analysis instruction (backend part of
src/services/apiClient.ts, line 106). -/
def prescriptionPromptText : String :=
  "You are a world-class clinical pharmacist AI assistant. Your purpose is to analyze medical prescriptions with extreme precision. Analyze the provided prescription image. Extract each medication, its dosage, and frequency. Verify this information against standard medical guidelines. Identify any potential drug-drug interactions, incorrect dosages, or other safety concerns. Provide a detailed technical summary for a medical professional and a simplified, easy-to-understand summary for the patient. Assess the overall risk level and provide a safety score. Your analysis must be consistent and reproducible. The output must be a single, valid JSON object that strictly adheres to the provided schema. Do not include any markdown formatting like \x60\x60\x60json."

/-- The X-ray-specific scan instruction (backend, lines 198-205). -/
def xrayPromptText : String := "CRITICAL MEDICAL TASK: You are a world-class radiologist AI assistant specializing in X-ray interpretation. Your primary function is to analyze X-ray images with the highest degree of accuracy. Errors can have serious consequences.
Analyze the provided X-ray image. Meticulously identify any and all abnormalities, paying close attention to:
- Fractures (hairline, displaced, comminuted)
- Lung conditions (nodules, masses, pneumonia, pleural effusion, pneumothorax)
- Joint dislocations or signs of arthritis
- Foreign objects
For each finding, specify its precise anatomical location and severity. Provide a comprehensive technical summary for a medical professional, including potential differential diagnoses. Also, generate a simplified, clear summary for the patient. Finally, assess the overall risk level and provide a safety score reflecting your confidence in the scan\x27s normality.
Your analysis must be consistent and reproducible. The output must be a single, valid JSON object that strictly adheres to the provided schema. Do not include any markdown formatting or extraneous text."

/-- The ECG-specific scan instruction (backend, lines 207-215). -/
def ecgPromptText : String := "CRITICAL MEDICAL TASK: You are a world-class cardiologist AI assistant specializing in ECG interpretation. Your primary function is to analyze electrocardiogram (ECG/EKG) traces with the highest degree of accuracy. Errors can have serious consequences.
Analyze the provided ECG image. Meticulously identify any and all abnormalities, paying close attention to:
- Rate and rhythm (e.g., tachycardia, bradycardia, atrial fibrillation, flutter)
- Axis deviation
- Signs of ischemia or infarction (ST elevation/depression, T-wave inversion, Q waves)
- Evidence of hypertrophy (ventricular or atrial)
- Conduction abnormalities (e.g., bundle branch blocks, AV blocks)
For each finding, specify its characteristics and location (e.g., which leads are affected). Provide a comprehensive technical summary for a medical professional, including potential diagnoses. Also, generate a simplified, clear summary for the patient. Finally, assess the overall risk level and provide a safety score reflecting your confidence in the ECG\x27s normality.
Your analysis must be consistent and reproducible. The output must be a single, valid JSON object that strictly adheres to the provided schema. Do not include any markdown formatting or extraneous text."

/-- The MRI-specific scan instruction (backend, lines 217-225). -/
def mriPromptText : String := "CRITICAL MEDICAL TASK: You are a world-class radiologist AI assistant specializing in MRI interpretation. Your primary function is to analyze Magnetic Resonance Imaging (MRI) scans with the highest degree of accuracy, focusing on soft tissue. Errors can have serious consequences.
Analyze the provided MRI image. Meticulously identify any and all abnormalities, paying close attention to:
- Soft tissue abnormalities (lesions, tumors, cysts)
- Inflammation or infection
- Ligament or tendon tears
- Signs of neurological conditions (e.g., in brain MRIs, look for plaques, tumors, signs of stroke)
- Degenerative changes in joints or the spine
For each finding, specify its precise anatomical location, size, and characteristics (e.g., signal intensity). Provide a comprehensive technical summary for a medical professional. Also, generate a simplified, clear summary for the patient. Finally, assess the overall risk level and provide a safety score reflecting your confidence in the scan\x27s normality.
Your analysis must be consistent and reproducible. The output must be a single, valid JSON object that strictly adheres to the provided schema. Do not include any markdown formatting or extraneous text."

/-- The generic imaging instruction (backend, line 227). -/
def genericScanPromptText : String :=
  "CRITICAL MEDICAL TASK: You are a world-class radiologist AI assistant. Your primary function is to analyze medical scans with the highest degree of accuracy and provide detailed, structured reports suitable for clinical use. Errors can have serious consequences. Analyze the provided medical image. Meticulously identify any and all abnormalities, such as fractures, nodules, masses, inflammation, or fluid buildup. For each finding, specify its precise anatomical location and severity. Provide a comprehensive technical summary for a medical professional, including potential differential diagnoses if applicable. Also, generate a simplified, clear summary for the patient. Finally, assess the overall risk level and provide a safety score reflecting your confidence in the scan\x27s normality. Your analysis must be consistent and reproducible. The output must be a single, valid JSON object that strictly adheres to the provided schema. Do not include any markdown formatting or extraneous text."

/-- The X-ray filename test (backend, line 197), applied to the lowercased
filename. -/
def isXrayName (lowerCaseFileName : String) : Bool :=
  stringIncludes lowerCaseFileName "x-ray" || stringIncludes lowerCaseFileName "xray" ||
    stringIncludes lowerCaseFileName "radiograph"

/-- The ECG filename test (backend, line 206). -/
def isEcgName (lowerCaseFileName : String) : Bool :=
  stringIncludes lowerCaseFileName "ecg" || stringIncludes lowerCaseFileName "ekg" ||
    stringIncludes lowerCaseFileName "electrocardiogram"

/-- The MRI filename test (backend, line 216). -/
def isMriName (lowerCaseFileName : String) : Bool :=
  stringIncludes lowerCaseFileName "mri" || stringIncludes lowerCaseFileName "magnetic resonance"

/-- The scan promptText selection chain (backend, lines 194-228). -/
def scanPromptText (filename : String) : String :=
  let lowerCaseFileName := toLowerCaseStr filename
  if isXrayName lowerCaseFileName then xrayPromptText
  else if isEcgName lowerCaseFileName then ecgPromptText
  else if isMriName lowerCaseFileName then mriPromptText
  else genericScanPromptText

/-- The instruction the backend submits to the model for a given analysis
type and filename: the prescription branch (line 106) uses the single
prescription instruction with no filename inspection; the scan branch
(lines 194-228) uses the filename-keyed chain. -/
def promptFor (type : AnalysisType) (filename : String) : String :=
  match type with
  | AnalysisType.prescription => prescriptionPromptText
  | AnalysisType.scan => scanPromptText filename

/-- Required-field list of the prescription responseSchema (line 144). -/
def prescriptionSchemaRequired : List String :=
  ["riskLevel", "safetyScore", "medications", "summary", "patientFriendlySummary"]

/-- Required-field list of the scan responseSchema (line 266); the scan
branch defines one schema object outside the filename chain, so every scan
modality shares it. -/
def scanSchemaRequired : List String :=
  ["riskLevel", "safetyScore", "scanFindings", "summary", "patientFriendlySummary"]

/-- A parsed model reply for the prescription schema (lines 108-145):
riskLevel and medication status are enum-constrained, safetyScore is an
integer with no enforced range. -/
structure PrescriptionData where
  riskLevel : RiskLevel
  safetyScore : Int
  medications : List Medication
  summary : String
  patientFriendlySummary : String
deriving DecidableEq, BEq

/-- A parsed model reply for the scan schema (lines 232-267). -/
structure ScanData where
  riskLevel : RiskLevel
  safetyScore : Int
  scanFindings : List ScanFinding
  summary : String
  patientFriendlySummary : String
deriving DecidableEq, BEq

/-- The environment of one performAnalysisOnBackend run: the outcomes of the
two FileReader encodings (fileToBase64 and fileToGenerativePart), the random
ids, Date.now, and the outcome of generateContent followed by JSON.parse for
each branch (error covers a rejected remote call, service-side schema
enforcement failure, and a JSON.parse throw). -/
structure AnalysisEnv where
  fileToBase64Result : Except Unit String
  fileToGenerativePartResult : Except Unit String
  recordId : String
  dateNow : Nat
  patientRandomDigits : String
  prescriptionModelResult : Except Unit PrescriptionData
  scanModelResult : Except Unit ScanData

/-- The placeholder medication of the prescription fallback record
(backend, line 184). -/
def fallbackMedication : Medication :=
  { name := "Analysis Failed", dosage := "N/A", status := MedStatus.incorrectDosage,
    notes := "Could not analyze prescription.", technicalNotes := some "API Error" }

/-- The placeholder finding of the scan fallback record (backend, line 312). -/
def fallbackFinding : ScanFinding :=
  { finding := "Analysis Failed", location := "N/A", severity := Severity.mild }

/-- The fixed technical summary of both fallback records (lines 185, 313). -/
def fallbackSummaryText : String :=
  "The AI analysis could not be completed due to a technical error. Please try again or use a different file."

/-- The fixed patient summary of the prescription fallback record (line 186). -/
def prescriptionFallbackPatientSummary : String :=
  "We\x27re sorry, but there was an error analyzing your prescription. Please try uploading it again."

/-- The fixed patient summary of the scan fallback record (line 314). -/
def scanFallbackPatientSummary : String :=
  "We\x27re sorry, but there was an error analyzing your scan. Please try uploading it again."

/-- The record returned by the prescription success path (lines 160-171). -/
def prescriptionSuccessRecord (file : FileInput) (userName fileUrl : String)
    (env : AnalysisEnv) (d : PrescriptionData) : AnalysisResult :=
  { id := env.recordId
    date := env.dateNow
    type := AnalysisType.prescription
    uploadedFile := { name := file.name, url := fileUrl, type := file.mime }
    patientInfo := generatePatientInfo userName env.patientRandomDigits
    riskLevel := d.riskLevel
    safetyScore := d.safetyScore
    medications := some d.medications
    scanFindings := none
    summary := d.summary
    patientFriendlySummary := d.patientFriendlySummary
    heatmapUrl := none }

/-- The record returned by the prescription catch block (lines 176-187). -/
def prescriptionFallbackRecord (file : FileInput) (userName fileUrl : String)
    (env : AnalysisEnv) : AnalysisResult :=
  { id := env.recordId
    date := env.dateNow
    type := AnalysisType.prescription
    uploadedFile := { name := file.name, url := fileUrl, type := file.mime }
    patientInfo := generatePatientInfo userName env.patientRandomDigits
    riskLevel := RiskLevel.medium
    safetyScore := 50
    medications := some [fallbackMedication]
    scanFindings := none
    summary := fallbackSummaryText
    patientFriendlySummary := prescriptionFallbackPatientSummary
    heatmapUrl := none }

/-- The record returned by the scan success path (lines 282-299), including
the heatmap derivation of lines 282-285. -/
def scanSuccessRecord (file : FileInput) (userName fileUrl : String)
    (env : AnalysisEnv) (d : ScanData) : AnalysisResult :=
  { id := env.recordId
    date := env.dateNow
    type := AnalysisType.scan
    uploadedFile := { name := file.name, url := fileUrl, type := file.mime }
    patientInfo := generatePatientInfo userName env.patientRandomDigits
    riskLevel := d.riskLevel
    safetyScore := d.safetyScore
    medications := none
    scanFindings := some d.scanFindings
    summary := d.summary
    patientFriendlySummary := d.patientFriendlySummary
    heatmapUrl :=
      if d.riskLevel == RiskLevel.critical || d.riskLevel == RiskLevel.high then
        some generateHeatmapUrl
      else none }

/-- The record returned by the scan catch block (lines 304-315); the object
literal has no heatmapUrl key. -/
def scanFallbackRecord (file : FileInput) (userName fileUrl : String)
    (env : AnalysisEnv) : AnalysisResult :=
  { id := env.recordId
    date := env.dateNow
    type := AnalysisType.scan
    uploadedFile := { name := file.name, url := fileUrl, type := file.mime }
    patientInfo := generatePatientInfo userName env.patientRandomDigits
    riskLevel := RiskLevel.medium
    safetyScore := 50
    medications := none
    scanFindings := some [fallbackFinding]
    summary := fallbackSummaryText
    patientFriendlySummary := scanFallbackPatientSummary
    heatmapUrl := none }

/-- performAnalysisOnBackend (backend part of src/services/apiClient.ts,
lines 94-318).  fileToBase64 is awaited before either try block, so its
rejection rejects the whole returned promise; fileToGenerativePart and the
model call are awaited inside the try blocks, so any failure there lands in
the catch block, which resolves with the fallback record. -/
def performAnalysisOnBackend (file : FileInput) (type : AnalysisType)
    (userName : String) (env : AnalysisEnv) : Except Unit AnalysisResult :=
  match env.fileToBase64Result with
  | Except.error e => Except.error e
  | Except.ok fileUrl =>
    match type with
    | AnalysisType.prescription =>
      match env.fileToGenerativePartResult with
      | Except.error _ => Except.ok (prescriptionFallbackRecord file userName fileUrl env)
      | Except.ok _ =>
        match env.prescriptionModelResult with
        | Except.error _ => Except.ok (prescriptionFallbackRecord file userName fileUrl env)
        | Except.ok d => Except.ok (prescriptionSuccessRecord file userName fileUrl env d)
    | AnalysisType.scan =>
      match env.fileToGenerativePartResult with
      | Except.error _ => Except.ok (scanFallbackRecord file userName fileUrl env)
      | Except.ok _ =>
        match env.scanModelResult with
        | Except.error _ => Except.ok (scanFallbackRecord file userName fileUrl env)
        | Except.ok d => Except.ok (scanSuccessRecord file userName fileUrl env d)

/-- analyzeDocument (src/services/apiClient.ts, lines 5-26): after the
simulated latency and progress messages it delegates to
performAnalysisOnBackend and returns its result unchanged. -/
def analyzeDocument (file : FileInput) (type : AnalysisType) (userName : String)
    (env : AnalysisEnv) : Except Unit AnalysisResult :=
  performAnalysisOnBackend file type userName env

/-- State of the dbService module (src/services/dbService.ts): the module
handle db (null or open) and the contents of the analysisReports object
store, keyed by record id. -/
structure DBState where
  initialized : Bool
  reports : List AnalysisResult
deriving DecidableEq

/-- IndexedDB objectStore.put with keyPath 'id': insert-or-replace by id. -/
def putById (r : AnalysisResult) : List AnalysisResult → List AnalysisResult
  | [] => [r]
  | x :: xs => if x.id == r.id then r :: xs else x :: putById r xs

/-- initDB (src/services/dbService.ts, lines 8-34), success case: resolves
true immediately when the handle exists, otherwise opens the database and
stores the handle.  (A browser-level open failure rejects; that path is
environmental and not taken here.) -/
def initDB (s : DBState) : DBState × Bool :=
  ({ s with initialized := true }, true)

/-- addReport (src/services/dbService.ts, lines 36-55): rejects with
'DB not initialized' when the handle is null, otherwise puts the record by
id and resolves. -/
def addReport (s : DBState) (report : AnalysisResult) : DBState × Except String Unit :=
  if s.initialized then
    ({ s with reports := putById report s.reports }, Except.ok ())
  else
    (s, Except.error "DB not initialized")

/-- getAllReports (src/services/dbService.ts, lines 57-77): resolves with
the empty array when the handle is null, otherwise resolves with every
stored record. -/
def getAllReports (s : DBState) : Except String (List AnalysisResult) :=
  if s.initialized then Except.ok s.reports else Except.ok []

/-- The health-trend value computed in src/components/Dashboard.tsx. -/
inductive HealthTrend where
  | improving
  | stable
  | needsAttention
deriving DecidableEq, BEq

/-- The healthTrend derivation of Dashboard.tsx (lines 70-82): trend starts
Stable; when history.length is at least 2, history[0].safetyScore and
history[1].safetyScore are compared against the plus-or-minus 2 band. -/
def dashboardHealthTrend (history : List AnalysisResult) : HealthTrend :=
  match history with
  | latest :: previous :: _ =>
    if latest.safetyScore > previous.safetyScore + 2 then HealthTrend.improving
    else if latest.safetyScore < previous.safetyScore - 2 then HealthTrend.needsAttention
    else HealthTrend.stable
  | _ => HealthTrend.stable

/-- Modelled from the spec (section 4.4): the healthTrend rule as the spec
states it, over the newest-first list of safetyScores. -/
def healthTrendSpec (scores : List Int) : HealthTrend :=
  match scores with
  | newest :: secondNewest :: _ =>
    if newest > secondNewest + 2 then HealthTrend.improving
    else if newest < secondNewest - 2 then HealthTrend.needsAttention
    else HealthTrend.stable
  | _ => HealthTrend.stable

set_option maxRecDepth 40000

/-- Case analysis on a resolved performAnalysisOnBackend run: the record is
one of the four record shapes, and for success shapes the model data is the
environment's model outcome. -/
theorem performAnalysis_shape (file : FileInput) (type : AnalysisType) (userName : String)
    (env : AnalysisEnv) (r : AnalysisResult)
    (h : performAnalysisOnBackend file type userName env = Except.ok r) :
    (∃ fileUrl, env.fileToBase64Result = Except.ok fileUrl ∧
      r = prescriptionFallbackRecord file userName fileUrl env) ∨
    (∃ fileUrl d, env.fileToBase64Result = Except.ok fileUrl ∧
      env.prescriptionModelResult = Except.ok d ∧
      r = prescriptionSuccessRecord file userName fileUrl env d) ∨
    (∃ fileUrl, env.fileToBase64Result = Except.ok fileUrl ∧
      r = scanFallbackRecord file userName fileUrl env) ∨
    (∃ fileUrl d, env.fileToBase64Result = Except.ok fileUrl ∧
      env.scanModelResult = Except.ok d ∧
      r = scanSuccessRecord file userName fileUrl env d) := by
  unfold performAnalysisOnBackend at h
  cases hdu : env.fileToBase64Result with
  | error e => rw [hdu] at h; exact absurd h (by simp)
  | ok fileUrl =>
    rw [hdu] at h
    cases type with
    | prescription =>
      cases hgp : env.fileToGenerativePartResult with
      | error e =>
        rw [hgp] at h
        simp only [Except.ok.injEq] at h
        exact Or.inl ⟨fileUrl, rfl, h.symm⟩
      | ok dat =>
        rw [hgp] at h
        cases hpm : env.prescriptionModelResult with
        | error e =>
          rw [hpm] at h
          simp only [Except.ok.injEq] at h
          exact Or.inl ⟨fileUrl, rfl, h.symm⟩
        | ok d =>
          rw [hpm] at h
          simp only [Except.ok.injEq] at h
          exact Or.inr (Or.inl ⟨fileUrl, d, rfl, rfl, h.symm⟩)
    | scan =>
      cases hgp : env.fileToGenerativePartResult with
      | error e =>
        rw [hgp] at h
        simp only [Except.ok.injEq] at h
        exact Or.inr (Or.inr (Or.inl ⟨fileUrl, rfl, h.symm⟩))
      | ok dat =>
        rw [hgp] at h
        cases hsm : env.scanModelResult with
        | error e =>
          rw [hsm] at h
          simp only [Except.ok.injEq] at h
          exact Or.inr (Or.inr (Or.inl ⟨fileUrl, rfl, h.symm⟩))
        | ok d =>
          rw [hsm] at h
          simp only [Except.ok.injEq] at h
          exact Or.inr (Or.inr (Or.inr ⟨fileUrl, d, rfl, rfl, h.symm⟩))

/-- A sample uploaded file for concrete runs. -/
def cFileScan : FileInput := { name := "scan.png", mime := "image/png" }

/-- A second sample uploaded file (an X-ray by filename). -/
def cFileXray : FileInput := { name := "chest_xray_01.png", mime := "image/png" }

/-- A concrete environment in which both encodings succeed and the model
invocation fails (rejects, or its reply cannot be parsed or validated). -/
def cEnvModelFail : AnalysisEnv :=
  { fileToBase64Result := Except.ok "data:image/png;base64,AAAA"
    fileToGenerativePartResult := Except.ok "AAAA"
    recordId := "abc1234"
    dateNow := 1700000000000
    patientRandomDigits := "123456"
    prescriptionModelResult := Except.error ()
    scanModelResult := Except.error () }

/-- A concrete environment in which the storage data-URL encoding itself
fails: fileToBase64 rejects. -/
def cEnvDataUrlFail : AnalysisEnv :=
  { fileToBase64Result := Except.error ()
    fileToGenerativePartResult := Except.ok "AAAA"
    recordId := "abc1234"
    dateNow := 1700000000000
    patientRandomDigits := "123456"
    prescriptionModelResult := Except.error ()
    scanModelResult := Except.error () }

/-- A concrete environment in which the data-URL encoding succeeds but the
raw base64 encoding for model submission (fileToGenerativePart) fails. -/
def cEnvRawBase64Fail : AnalysisEnv :=
  { fileToBase64Result := Except.ok "data:image/png;base64,AAAA"
    fileToGenerativePartResult := Except.error ()
    recordId := "abc1234"
    dateNow := 1700000000000
    patientRandomDigits := "123456"
    prescriptionModelResult := Except.error ()
    scanModelResult := Except.error () }

/-- Claim C1: every model-invocation failure is recovered inside the
pipeline: with both encodings succeeded and the model outcome an error, the
operation resolves (no rejection reaches the caller) with the fixed degraded
record: riskLevel Medium, safetyScore 50, exactly one placeholder medication
(Prescription) or one placeholder finding (Scan) whose description indicates
failed analysis, and the fixed summary texts. -/
theorem claim1_model_failure_yields_fallback (file : FileInput) (type : AnalysisType)
    (userName fileUrl rawData : String) (env : AnalysisEnv)
    (hdu : env.fileToBase64Result = Except.ok fileUrl)
    (hgp : env.fileToGenerativePartResult = Except.ok rawData)
    (hpm : env.prescriptionModelResult = Except.error ())
    (hsm : env.scanModelResult = Except.error ()) :
    ∃ r, performAnalysisOnBackend file type userName env = Except.ok r ∧
      r.riskLevel = RiskLevel.medium ∧ r.safetyScore = 50 ∧
      r.summary = fallbackSummaryText ∧
      (type = AnalysisType.prescription →
        r.medications = some [fallbackMedication] ∧
        fallbackMedication.name = "Analysis Failed" ∧
        r.patientFriendlySummary = prescriptionFallbackPatientSummary) ∧
      (type = AnalysisType.scan →
        r.scanFindings = some [fallbackFinding] ∧
        fallbackFinding.finding = "Analysis Failed" ∧
        r.patientFriendlySummary = scanFallbackPatientSummary) := by
  cases type with
  | prescription =>
    refine ⟨prescriptionFallbackRecord file userName fileUrl env, ?_, rfl, rfl, rfl,
      fun _ => ⟨rfl, rfl, rfl⟩, fun hc => absurd hc (by decide)⟩
    unfold performAnalysisOnBackend
    rw [hdu, hgp, hpm]
  | scan =>
    refine ⟨scanFallbackRecord file userName fileUrl env, ?_, rfl, rfl, rfl,
      fun hc => absurd hc (by decide), fun _ => ⟨rfl, rfl, rfl⟩⟩
    unfold performAnalysisOnBackend
    rw [hdu, hgp, hsm]

/-- Witness for claim C1 at a concrete scan run with a failed model call. -/
theorem claim1_witness :
    ∃ r, performAnalysisOnBackend cFileScan AnalysisType.scan "Asha" cEnvModelFail = Except.ok r ∧
      r.riskLevel = RiskLevel.medium ∧ r.safetyScore = 50 ∧
      r.summary = fallbackSummaryText ∧
      (AnalysisType.scan = AnalysisType.prescription →
        r.medications = some [fallbackMedication] ∧
        fallbackMedication.name = "Analysis Failed" ∧
        r.patientFriendlySummary = prescriptionFallbackPatientSummary) ∧
      (AnalysisType.scan = AnalysisType.scan →
        r.scanFindings = some [fallbackFinding] ∧
        fallbackFinding.finding = "Analysis Failed" ∧
        r.patientFriendlySummary = scanFallbackPatientSummary) :=
  claim1_model_failure_yields_fallback cFileScan AnalysisType.scan "Asha"
    "data:image/png;base64,AAAA" "AAAA" cEnvModelFail rfl rfl rfl rfl

/-- Claim C2: for every record the pipeline resolves with, the heatmap
overlay is present exactly when the record is a Scan whose riskLevel is High
or Critical; Prescription records and the Medium-risk scan fallback never
carry one. -/
theorem claim2_heatmap_iff_scan_high_or_critical (file : FileInput) (type : AnalysisType)
    (userName : String) (env : AnalysisEnv) (r : AnalysisResult)
    (h : performAnalysisOnBackend file type userName env = Except.ok r) :
    r.heatmapUrl.isSome = true ↔
      (r.type = AnalysisType.scan ∧
        (r.riskLevel = RiskLevel.high ∨ r.riskLevel = RiskLevel.critical)) := by
  rcases performAnalysis_shape file type userName env r h with
    ⟨u, _, rfl⟩ | ⟨u, d, _, _, rfl⟩ | ⟨u, _, rfl⟩ | ⟨u, d, _, _, rfl⟩
  · simp [prescriptionFallbackRecord]
  · simp [prescriptionSuccessRecord]
  · simp [scanFallbackRecord]
  · obtain ⟨rl, ss, sf, sm, ps⟩ := d
    cases rl <;> simp [scanSuccessRecord] <;> decide

/-- A schema-conforming scan reply with High risk, used as a witness run. -/
def dScanHigh : ScanData :=
  { riskLevel := RiskLevel.high
    safetyScore := 35
    scanFindings := [{ finding := "Nodule", location := "Left lung", severity := Severity.moderate }]
    summary := "Technical summary."
    patientFriendlySummary := "Patient summary." }

/-- A schema-conforming scan reply with Critical risk. -/
def dScanCritical : ScanData :=
  { riskLevel := RiskLevel.critical
    safetyScore := 5
    scanFindings := [{ finding := "Mass", location := "Right lung", severity := Severity.severe }]
    summary := "Technical summary two."
    patientFriendlySummary := "Patient summary two." }

/-- A concrete environment whose scan model call succeeds with High risk. -/
def cEnvScanHigh : AnalysisEnv :=
  { fileToBase64Result := Except.ok "data:image/png;base64,AAAA"
    fileToGenerativePartResult := Except.ok "AAAA"
    recordId := "abc1234"
    dateNow := 1700000000000
    patientRandomDigits := "123456"
    prescriptionModelResult := Except.error ()
    scanModelResult := Except.ok dScanHigh }

/-- A concrete environment whose scan model call succeeds with Critical
risk. -/
def cEnvScanCritical : AnalysisEnv :=
  { fileToBase64Result := Except.ok "data:image/jpeg;base64,BBBB"
    fileToGenerativePartResult := Except.ok "BBBB"
    recordId := "zzz9999"
    dateNow := 1800000000000
    patientRandomDigits := "654321"
    prescriptionModelResult := Except.error ()
    scanModelResult := Except.ok dScanCritical }

/-- Witness for claim C2 at a concrete High-risk scan run. -/
theorem claim2_witness :
    (scanSuccessRecord cFileScan "Asha" "data:image/png;base64,AAAA" cEnvScanHigh dScanHigh).heatmapUrl.isSome = true ↔
      ((scanSuccessRecord cFileScan "Asha" "data:image/png;base64,AAAA" cEnvScanHigh dScanHigh).type = AnalysisType.scan ∧
        ((scanSuccessRecord cFileScan "Asha" "data:image/png;base64,AAAA" cEnvScanHigh dScanHigh).riskLevel = RiskLevel.high ∨
          (scanSuccessRecord cFileScan "Asha" "data:image/png;base64,AAAA" cEnvScanHigh dScanHigh).riskLevel = RiskLevel.critical)) :=
  claim2_heatmap_iff_scan_high_or_critical cFileScan AnalysisType.scan "Asha" cEnvScanHigh
    (scanSuccessRecord cFileScan "Asha" "data:image/png;base64,AAAA" cEnvScanHigh dScanHigh) rfl

/-- Counterexample to claim C3: at this input the data-URL encoding
succeeds but the raw base64 encoding for model submission
(fileToGenerativePart) fails, yet the operation does not reject: it resolves
with the scan fallback record, so an AnalysisRecord is produced. -/
theorem claim3_counterexample :
    cEnvRawBase64Fail.fileToGenerativePartResult = Except.error () ∧
    performAnalysisOnBackend cFileScan AnalysisType.scan "Asha" cEnvRawBase64Fail =
      Except.ok (scanFallbackRecord cFileScan "Asha" "data:image/png;base64,AAAA" cEnvRawBase64Fail) ∧
    (performAnalysisOnBackend cFileScan AnalysisType.scan "Asha" cEnvRawBase64Fail).isOk = true :=
  ⟨rfl, rfl, rfl⟩

/-- Claim C3 as amended: a data-URL (storage) encoding failure rejects the
whole operation and produces no record; a raw base64 (model submission)
encoding failure is caught inside the try block and resolves with the
fallback record of the requested kind instead of rejecting. -/
theorem claim3_amended_encoding_failure_semantics (file : FileInput) (type : AnalysisType)
    (userName : String) (env : AnalysisEnv) :
    (∀ e, env.fileToBase64Result = Except.error e →
      performAnalysisOnBackend file type userName env = Except.error e) ∧
    (∀ fileUrl, env.fileToBase64Result = Except.ok fileUrl →
      env.fileToGenerativePartResult = Except.error () →
      performAnalysisOnBackend file type userName env =
        Except.ok (match type with
          | AnalysisType.prescription => prescriptionFallbackRecord file userName fileUrl env
          | AnalysisType.scan => scanFallbackRecord file userName fileUrl env)) := by
  constructor
  · intro e hdu
    unfold performAnalysisOnBackend
    rw [hdu]
  · intro fileUrl hdu hgp
    unfold performAnalysisOnBackend
    rw [hdu, hgp]
    cases type <;> rfl

/-- Witness for claim C3 as amended: a concrete rejecting run (data-URL
encoding failure) and a concrete resolving run (raw base64 failure). -/
theorem claim3_witness :
    performAnalysisOnBackend cFileScan AnalysisType.prescription "Asha" cEnvDataUrlFail =
      Except.error () ∧
    performAnalysisOnBackend cFileScan AnalysisType.scan "Asha" cEnvRawBase64Fail =
      Except.ok (scanFallbackRecord cFileScan "Asha" "data:image/png;base64,AAAA" cEnvRawBase64Fail) :=
  ⟨(claim3_amended_encoding_failure_semantics cFileScan AnalysisType.prescription "Asha"
      cEnvDataUrlFail).1 () rfl,
   (claim3_amended_encoding_failure_semantics cFileScan AnalysisType.scan "Asha"
      cEnvRawBase64Fail).2 "data:image/png;base64,AAAA" rfl rfl⟩

/-- A sample stored scan record with a given safetyScore, used to exercise
the dashboard aggregator on concrete histories. -/
def sampleScanRecord (score : Int) : AnalysisResult :=
  { id := "rec-sample"
    date := 0
    type := AnalysisType.scan
    uploadedFile := { name := "scan.png", url := "data:image/png;base64,AAAA", type := "image/png" }
    patientInfo := { name := "Asha", id := "P123456", dob := "1985-05-22" }
    riskLevel := RiskLevel.low
    safetyScore := score
    medications := none
    scanFindings := some []
    summary := "s"
    patientFriendlySummary := "p"
    heatmapUrl := none }

/-- Claim C4: healthTrend is the spec rule applied to the two most recent
safetyScores (fewer than 2 records gives Stable; Improving above the +2
band, NeedsAttention below the -2 band, Stable inside it), and the concrete
newest-to-oldest score lists [90, 85], [80, 85], [86, 85] give Improving,
NeedsAttention and Stable. -/
theorem claim4_health_trend :
    (∀ history : List AnalysisResult,
      dashboardHealthTrend history =
        healthTrendSpec (history.map AnalysisResult.safetyScore)) ∧
    dashboardHealthTrend [] = HealthTrend.stable ∧
    dashboardHealthTrend [sampleScanRecord 90] = HealthTrend.stable ∧
    dashboardHealthTrend [sampleScanRecord 90, sampleScanRecord 85] = HealthTrend.improving ∧
    dashboardHealthTrend [sampleScanRecord 80, sampleScanRecord 85] = HealthTrend.needsAttention ∧
    dashboardHealthTrend [sampleScanRecord 86, sampleScanRecord 85] = HealthTrend.stable := by
  refine ⟨?_, rfl, rfl, by decide, by decide, by decide⟩
  intro history
  match history with
  | [] => rfl
  | [a] => rfl
  | a :: b :: t => rfl

/-- Claim C5: every record the pipeline resolves with has exactly the field
matching its kind populated: a Scan record has scanFindings present and
medications absent, a Prescription record has medications present and
scanFindings absent. -/
theorem claim5_kind_fixes_fields (file : FileInput) (type : AnalysisType)
    (userName : String) (env : AnalysisEnv) (r : AnalysisResult)
    (h : performAnalysisOnBackend file type userName env = Except.ok r) :
    (r.type = AnalysisType.scan → (∃ l, r.scanFindings = some l) ∧ r.medications = none) ∧
    (r.type = AnalysisType.prescription → (∃ l, r.medications = some l) ∧ r.scanFindings = none) := by
  rcases performAnalysis_shape file type userName env r h with
    ⟨u, _, rfl⟩ | ⟨u, d, _, _, rfl⟩ | ⟨u, _, rfl⟩ | ⟨u, d, _, _, rfl⟩
  · exact ⟨fun ht => by simp [prescriptionFallbackRecord] at ht,
      fun _ => ⟨⟨[fallbackMedication], rfl⟩, rfl⟩⟩
  · exact ⟨fun ht => by simp [prescriptionSuccessRecord] at ht,
      fun _ => ⟨⟨d.medications, rfl⟩, rfl⟩⟩
  · exact ⟨fun _ => ⟨⟨[fallbackFinding], rfl⟩, rfl⟩,
      fun ht => by simp [scanFallbackRecord] at ht⟩
  · exact ⟨fun _ => ⟨⟨d.scanFindings, rfl⟩, rfl⟩,
      fun ht => by simp [scanSuccessRecord] at ht⟩

/-- Witness for claim C5 at a concrete successful scan run. -/
theorem claim5_witness :
    ((scanSuccessRecord cFileScan "Asha" "data:image/png;base64,AAAA" cEnvScanHigh dScanHigh).type = AnalysisType.scan →
      (∃ l, (scanSuccessRecord cFileScan "Asha" "data:image/png;base64,AAAA" cEnvScanHigh dScanHigh).scanFindings = some l) ∧
      (scanSuccessRecord cFileScan "Asha" "data:image/png;base64,AAAA" cEnvScanHigh dScanHigh).medications = none) ∧
    ((scanSuccessRecord cFileScan "Asha" "data:image/png;base64,AAAA" cEnvScanHigh dScanHigh).type = AnalysisType.prescription →
      (∃ l, (scanSuccessRecord cFileScan "Asha" "data:image/png;base64,AAAA" cEnvScanHigh dScanHigh).medications = some l) ∧
      (scanSuccessRecord cFileScan "Asha" "data:image/png;base64,AAAA" cEnvScanHigh dScanHigh).scanFindings = none) :=
  claim5_kind_fixes_fields cFileScan AnalysisType.scan "Asha" cEnvScanHigh
    (scanSuccessRecord cFileScan "Asha" "data:image/png;base64,AAAA" cEnvScanHigh dScanHigh) rfl

/-- A schema-conforming scan reply whose safetyScore is 150: the schema
constrains safetyScore only to be an integer (the 0..100 range appears only
in the description text), and the backend copies it into the record without
range validation. -/
def dScanScore150 : ScanData :=
  { riskLevel := RiskLevel.low
    safetyScore := 150
    scanFindings := []
    summary := "Technical summary."
    patientFriendlySummary := "Patient summary." }

/-- A concrete environment whose scan model call succeeds with the
out-of-range safetyScore 150. -/
def cEnvScore150 : AnalysisEnv :=
  { fileToBase64Result := Except.ok "data:image/png;base64,AAAA"
    fileToGenerativePartResult := Except.ok "AAAA"
    recordId := "abc1234"
    dateNow := 1700000000000
    patientRandomDigits := "123456"
    prescriptionModelResult := Except.error ()
    scanModelResult := Except.ok dScanScore150 }

/-- Counterexample to claim C6: a schema-conforming model reply carrying
safetyScore 150 flows through the success path unchanged, so the pipeline
produces a record whose safetyScore is outside [0,100]. -/
theorem claim6_counterexample :
    performAnalysisOnBackend cFileScan AnalysisType.scan "Asha" cEnvScore150 =
      Except.ok (scanSuccessRecord cFileScan "Asha" "data:image/png;base64,AAAA" cEnvScore150 dScanScore150) ∧
    (scanSuccessRecord cFileScan "Asha" "data:image/png;base64,AAAA" cEnvScore150 dScanScore150).safetyScore = 150 ∧
    ¬ (scanSuccessRecord cFileScan "Asha" "data:image/png;base64,AAAA" cEnvScore150 dScanScore150).safetyScore ≤ 100 :=
  ⟨rfl, rfl, by decide⟩

/-- Claim C6 as amended: every record's safetyScore is either the fallback
constant 50 or the integer the model supplied, and it lies in [0,100]
whenever every model-supplied safetyScore does; the code itself never
enforces the range. -/
theorem claim6_amended_safety_score (file : FileInput) (type : AnalysisType)
    (userName : String) (env : AnalysisEnv) (r : AnalysisResult)
    (h : performAnalysisOnBackend file type userName env = Except.ok r)
    (hp : ∀ d, env.prescriptionModelResult = Except.ok d →
      0 ≤ d.safetyScore ∧ d.safetyScore ≤ 100)
    (hs : ∀ d, env.scanModelResult = Except.ok d →
      0 ≤ d.safetyScore ∧ d.safetyScore ≤ 100) :
    (r.safetyScore = 50 ∨
      (∃ d, env.prescriptionModelResult = Except.ok d ∧ r.safetyScore = d.safetyScore) ∨
      (∃ d, env.scanModelResult = Except.ok d ∧ r.safetyScore = d.safetyScore)) ∧
    (0 ≤ r.safetyScore ∧ r.safetyScore ≤ 100) := by
  rcases performAnalysis_shape file type userName env r h with
    ⟨u, _, rfl⟩ | ⟨u, d, _, hpm, rfl⟩ | ⟨u, _, rfl⟩ | ⟨u, d, _, hsm, rfl⟩
  · refine ⟨Or.inl rfl, ?_, ?_⟩ <;> simp [prescriptionFallbackRecord]
  · exact ⟨Or.inr (Or.inl ⟨d, hpm, rfl⟩), hp d hpm⟩
  · refine ⟨Or.inl rfl, ?_, ?_⟩ <;> simp [scanFallbackRecord]
  · exact ⟨Or.inr (Or.inr ⟨d, hsm, rfl⟩), hs d hsm⟩

/-- Witness for claim C6 as amended at a concrete High-risk scan run whose
model-supplied safetyScore is 35. -/
theorem claim6_witness :
    ((scanSuccessRecord cFileScan "Asha" "data:image/png;base64,AAAA" cEnvScanHigh dScanHigh).safetyScore = 50 ∨
      (∃ d, cEnvScanHigh.prescriptionModelResult = Except.ok d ∧
        (scanSuccessRecord cFileScan "Asha" "data:image/png;base64,AAAA" cEnvScanHigh dScanHigh).safetyScore = d.safetyScore) ∨
      (∃ d, cEnvScanHigh.scanModelResult = Except.ok d ∧
        (scanSuccessRecord cFileScan "Asha" "data:image/png;base64,AAAA" cEnvScanHigh dScanHigh).safetyScore = d.safetyScore)) ∧
    (0 ≤ (scanSuccessRecord cFileScan "Asha" "data:image/png;base64,AAAA" cEnvScanHigh dScanHigh).safetyScore ∧
      (scanSuccessRecord cFileScan "Asha" "data:image/png;base64,AAAA" cEnvScanHigh dScanHigh).safetyScore ≤ 100) :=
  claim6_amended_safety_score cFileScan AnalysisType.scan "Asha" cEnvScanHigh
    (scanSuccessRecord cFileScan "Asha" "data:image/png;base64,AAAA" cEnvScanHigh dScanHigh) rfl
    (fun d hd => Except.noConfusion hd)
    (fun d hd => by
      have hd2 : Except.ok dScanHigh = Except.ok d := hd
      injection hd2 with h1
      subst h1
      decide)

/-- Claim C7: prompt selection.  For Scan the lowercased filename is tested
for X-ray keywords, then ECG/EKG keywords, then MRI keywords, first match
winning, with the generic imaging instruction as fallback;
"chest_xray_01.png" selects the X-ray instruction and "scan.png" the generic
one.  For Prescription the selector returns the single prescription
instruction regardless of filename. -/
theorem claim7_prompt_selection :
    scanPromptText "chest_xray_01.png" = xrayPromptText ∧
    scanPromptText "scan.png" = genericScanPromptText ∧
    (∀ filename, promptFor AnalysisType.prescription filename = prescriptionPromptText) ∧
    (∀ filename, promptFor AnalysisType.scan filename = scanPromptText filename) ∧
    (∀ filename, isXrayName (toLowerCaseStr filename) = true →
      scanPromptText filename = xrayPromptText) ∧
    (∀ filename, isXrayName (toLowerCaseStr filename) = false →
      isEcgName (toLowerCaseStr filename) = true →
      scanPromptText filename = ecgPromptText) ∧
    (∀ filename, isXrayName (toLowerCaseStr filename) = false →
      isEcgName (toLowerCaseStr filename) = false →
      isMriName (toLowerCaseStr filename) = true →
      scanPromptText filename = mriPromptText) ∧
    (∀ filename, isXrayName (toLowerCaseStr filename) = false →
      isEcgName (toLowerCaseStr filename) = false →
      isMriName (toLowerCaseStr filename) = false →
      scanPromptText filename = genericScanPromptText) := by
  refine ⟨by decide, by decide, fun _ => rfl, fun _ => rfl, ?_, ?_, ?_, ?_⟩
  · intro filename h1
    unfold scanPromptText
    simp [h1]
  · intro filename h1 h2
    unfold scanPromptText
    simp [h1, h2]
  · intro filename h1 h2 h3
    unfold scanPromptText
    simp [h1, h2, h3]
  · intro filename h1 h2 h3
    unfold scanPromptText
    simp [h1, h2, h3]

/-- Witness for claim C7: the MRI branch fires on a concrete filename that
matches no earlier keyword. -/
theorem claim7_witness :
    scanPromptText "brain_mri_scan.png" = mriPromptText :=
  claim7_prompt_selection.2.2.2.2.2.2.1 "brain_mri_scan.png" (by decide) (by decide) (by decide)

/-- Inserting a record by id always leaves that record in the store. -/
theorem mem_putById (r : AnalysisResult) (l : List AnalysisResult) : r ∈ putById r l := by
  induction l with
  | nil => simp [putById]
  | cons x xs ih =>
    by_cases hx : (x.id == r.id) = true
    · simp [putById, hx]
    · simp only [putById, hx, if_false, Bool.false_eq_true, ite_false, List.mem_cons]
      exact Or.inr ih

/-- Claim C8: with the store never initialized, getAllReports resolves with
the empty collection while addReport rejects without changing anything;
after initialization, addReport resolves and a following getAllReports
resolves with a collection containing the stored record. -/
theorem claim8_store_semantics :
    (∀ reports : List AnalysisResult,
      getAllReports { initialized := false, reports := reports } = Except.ok []) ∧
    (∀ (reports : List AnalysisResult) (r : AnalysisResult),
      addReport { initialized := false, reports := reports } r =
        ({ initialized := false, reports := reports }, Except.error "DB not initialized")) ∧
    (∀ (s : DBState) (r : AnalysisResult),
      (initDB s).2 = true ∧
      (addReport (initDB s).1 r).2 = Except.ok () ∧
      getAllReports (addReport (initDB s).1 r).1 =
        Except.ok (addReport (initDB s).1 r).1.reports ∧
      r ∈ (addReport (initDB s).1 r).1.reports) := by
  refine ⟨fun reports => rfl, fun reports r => rfl,
    fun s r => ⟨rfl, rfl, rfl, ?_⟩⟩
  exact mem_putById r s.reports

/-- Claim C9: the heatmap overlay is one constant artifact: any two
pipeline runs whose records carry a heatmap carry the same string, the
fixed SVG data URL, regardless of file, filename, user, model findings and
risk level. -/
theorem claim9_heatmap_constant (f1 f2 : FileInput) (t1 t2 : AnalysisType) (u1 u2 : String)
    (e1 e2 : AnalysisEnv) (r1 r2 : AnalysisResult) (s1 s2 : String)
    (h1 : performAnalysisOnBackend f1 t1 u1 e1 = Except.ok r1)
    (h2 : performAnalysisOnBackend f2 t2 u2 e2 = Except.ok r2)
    (hh1 : r1.heatmapUrl = some s1) (hh2 : r2.heatmapUrl = some s2) :
    s1 = generateHeatmapUrl ∧ s2 = generateHeatmapUrl ∧ s1 = s2 := by
  have key : ∀ (f : FileInput) (t : AnalysisType) (u : String) (e : AnalysisEnv)
      (r : AnalysisResult) (s : String),
      performAnalysisOnBackend f t u e = Except.ok r → r.heatmapUrl = some s →
      s = generateHeatmapUrl := by
    intro f t u e r s h hh
    rcases performAnalysis_shape f t u e r h with
      ⟨w, _, rfl⟩ | ⟨w, d, _, _, rfl⟩ | ⟨w, _, rfl⟩ | ⟨w, d, _, _, rfl⟩
    · simp [prescriptionFallbackRecord] at hh
    · simp [prescriptionSuccessRecord] at hh
    · simp [scanFallbackRecord] at hh
    · simp only [scanSuccessRecord] at hh
      split at hh
      · exact (Option.some.injEq _ _ ▸ hh).symm
      · simp at hh
  have k1 := key f1 t1 u1 e1 r1 s1 h1 hh1
  have k2 := key f2 t2 u2 e2 r2 s2 h2 hh2
  exact ⟨k1, k2, k1.trans k2.symm⟩

/-- Witness for claim C9: a High-risk run and a Critical-risk run on
different files, users and environments produce the same heatmap string. -/
theorem claim9_witness :
    generateHeatmapUrl = generateHeatmapUrl ∧
    generateHeatmapUrl = generateHeatmapUrl ∧
    generateHeatmapUrl = generateHeatmapUrl :=
  claim9_heatmap_constant cFileScan cFileXray AnalysisType.scan AnalysisType.scan
    "Asha" "Ravi" cEnvScanHigh cEnvScanCritical
    (scanSuccessRecord cFileScan "Asha" "data:image/png;base64,AAAA" cEnvScanHigh dScanHigh)
    (scanSuccessRecord cFileXray "Ravi" "data:image/jpeg;base64,BBBB" cEnvScanCritical dScanCritical)
    generateHeatmapUrl generateHeatmapUrl rfl rfl rfl rfl

/-- Claim C10: the fallback records reuse the ordinary enumeration values:
the placeholder medication is status Incorrect Dosage with name Analysis
Failed and dosage N/A, the placeholder finding is severity Mild at location
N/A, and the status and severity enumerations contain no dedicated failure
marker beyond their three ordinary values. -/
theorem claim10_fallback_placeholders :
    fallbackMedication.name = "Analysis Failed" ∧
    fallbackMedication.dosage = "N/A" ∧
    fallbackMedication.status = MedStatus.incorrectDosage ∧
    fallbackFinding.finding = "Analysis Failed" ∧
    fallbackFinding.location = "N/A" ∧
    fallbackFinding.severity = Severity.mild ∧
    (∀ st : MedStatus, st = MedStatus.verified ∨ st = MedStatus.interactionWarning ∨
      st = MedStatus.incorrectDosage) ∧
    (∀ sv : Severity, sv = Severity.mild ∨ sv = Severity.moderate ∨ sv = Severity.severe) ∧
    (∀ (file : FileInput) (userName fileUrl : String) (env : AnalysisEnv),
      (prescriptionFallbackRecord file userName fileUrl env).medications =
        some [fallbackMedication] ∧
      (scanFallbackRecord file userName fileUrl env).scanFindings =
        some [fallbackFinding]) := by
  refine ⟨rfl, rfl, rfl, rfl, rfl, rfl, ?_, ?_, fun _ _ _ _ => ⟨rfl, rfl⟩⟩
  · intro st; cases st <;> simp
  · intro sv; cases sv <;> simp
